import Mathlib

/-!
Shallow embedding of the BookMyShow movie monitor
(`movie_monitor.py`, `movie_monitor_single.py`).

The browser automation (Playwright) is external: an attempt's interaction with
the page is modelled by an `AttemptEnv` describing whether the two setup steps
succeed and what the page interaction yields (a list of stripped listing-title
strings, or an error message for a raised exception).  All control flow,
classification, retry, resource-handling and notification-dispatch logic is
translated from the source.
-/

namespace MovieMonitor

/-- Python `str.lower()` on a string, as the list of its lower-cased
characters. -/
def lowerChars (s : String) : List Char :=
  s.toList.map Char.toLower

/-- Case-insensitive substring test: Python `needle.lower() in hay.lower()`.
Used at `movie_monitor.py:388` (`movie_name.lower() in movie_title.lower()`)
and at the error-token tests (where the needle tokens are already
lower-case). -/
def containsLower (needle hay : String) : Bool :=
  decide (lowerChars needle <:+: lowerChars hay)

/-- `movie_monitor.py:388` — a listing title matches when the configured movie
name, lower-cased, occurs as a substring of the lower-cased title. -/
def titleMatches (movieName title : String) : Bool :=
  containsLower movieName title

/-- The retry-worthiness test of `movie_monitor.py:554-555` and
`movie_monitor_single.py:30-31`: `error_msg = str(e).lower()` and then
`"cloudflare" in error_msg or "blocked" in error_msg or "timeout" in error_msg`. -/
def isRetryableError (errorMsg : String) : Bool :=
  containsLower "cloudflare" errorMsg
    || containsLower "blocked" errorMsg
    || containsLower "timeout" errorMsg

/-- What the page interaction inside `check_movie_availability`'s `try` block
yields: either the stripped text contents of the located title elements
(`movie_monitor.py:380-387`), or the message of the raised exception
(navigation failure, selector timeout, block page, ...). -/
inductive FetchOutcome
  | ok (titles : List String)
  | err (msg : String)
deriving DecidableEq, Repr

/-- The external behaviour of one attempt: whether `sync_playwright().start()`
(`movie_monitor.py:179`) succeeds, whether `chromium.launch`
(`movie_monitor.py:220`) succeeds, and what the page interaction yields. -/
structure AttemptEnv where
  startPlaywrightOk : Bool
  launchBrowserOk : Bool
  fetch : FetchOutcome
deriving DecidableEq, Repr

/-- Which of the two scoped resources are live: the started Playwright driver
(`self.playwright`) and the launched browser (`self.browser`). -/
structure RState where
  pwRunning : Bool
  browserOpen : Bool
deriving DecidableEq, Repr

/-- `setup_browser` (`movie_monitor.py:176-227`): starts Playwright, then
launches the browser; any exception is caught and `False` is returned.  When
the launch raises after a successful start, the started Playwright driver is
left running. -/
def setup_browser (env : AttemptEnv) : Bool × RState :=
  if env.startPlaywrightOk then
    if env.launchBrowserOk then (true, ⟨true, true⟩)
    else (false, ⟨true, false⟩)
  else (false, ⟨false, false⟩)

/-- `close_browser` (`movie_monitor.py:229-238`): closes the browser and stops
Playwright (we model the close/stop calls themselves as succeeding; their own
exceptions are caught by the method). -/
def close_browser (_s : RState) : RState := ⟨false, false⟩

/-- What one call of `check_movie_availability` produces: its boolean return
value, the resource state at exit, and the sequence of
`"Found target movie: ..."` log lines (`movie_monitor.py:389`), in listing
order. -/
structure AttemptReport where
  result : Bool
  resources : RState
  foundLog : List String
deriving DecidableEq, Repr

/-- `check_movie_availability` (`movie_monitor.py:240-404`): if `setup_browser`
fails it returns `False` at line 251-252 — before the `try`/`finally`, so
`close_browser` is not called on that path.  Otherwise the `try` block runs:
on a successful page interaction `movie_found` is the `any`-fold of the
per-title match test (lines 382-391) and the matching titles are logged in
order; on an exception the handler at lines 397-402 logs and returns `False`;
the `finally` at lines 403-404 calls `close_browser`. -/
def check_movie_availability (movieName : String) (env : AttemptEnv) : AttemptReport :=
  match setup_browser env with
  | (false, st) => ⟨false, st, []⟩
  | (true, st) =>
    match env.fetch with
    | .ok titles =>
        ⟨titles.any (titleMatches movieName),
         close_browser st,
         titles.filter (titleMatches movieName)⟩
    | .err _ => ⟨false, close_browser st, []⟩

/-- What one `check_movie_availability(retry)` call looks like to the retry
loops: either a returned boolean, or a raised exception with a message.  (The
loops in `run` and in the single-run script are written for both shapes; the
composition `attemptsOf` below shows only `val` ever occurs.) -/
inductive AttemptResult
  | val (b : Bool)
  | exn (msg : String)
deriving DecidableEq, Repr

/-- The attempt behaviour actually presented to the retry loops: the boolean
returned by `check_movie_availability` for the attempt's environment.  It is
always an `AttemptResult.val`; no exception escapes `check_movie_availability`. -/
def attemptsOf (movieName : String) (envs : Nat → AttemptEnv) : Nat → AttemptResult :=
  fun k => .val (check_movie_availability movieName (envs k)).result

/-- The bounds of the backoff sleep of the monitor loop, `movie_monitor.py:559`
(`time.sleep(random.randint(30, 90))`). -/
def backoff_window : Nat × Nat := (30, 90)

/-- The bounds of the backoff sleep of the single-run script,
`movie_monitor_single.py:41` (`time.sleep(random.randint(10, 30))`). -/
def single_backoff_window : Nat × Nat := (10, 30)

/-- What one polling cycle of `run` produces: the `found` flag, the number of
`check_movie_availability` calls made, and the bounds of each backoff sleep
performed, in order. -/
structure CycleResult where
  found : Bool
  attempts : Nat
  sleeps : List (Nat × Nat)
deriving DecidableEq, Repr

/-- The retry loop of one polling cycle, `movie_monitor.py:544-563`
(`for retry in range(max_retries)`), started at index `retry` with `remaining`
iterations left.  A returned `True` sets `found` and breaks; a returned
`False` breaks ("Movie not found but page loaded successfully - no need to
retry"); a raised exception whose lower-cased message holds one of the tokens
sleeps for `random.randint(30, 90)` when `retry < max_retries - 1` and
continues; any other exception breaks. -/
def cycleGo (attempts : Nat → AttemptResult) (maxRetries : Nat) :
    Nat → Nat → CycleResult
  | _retry, 0 => ⟨false, 0, []⟩
  | retry, _remaining + 1 =>
    match attempts retry with
    | .val true => ⟨true, 1, []⟩
    | .val false => ⟨false, 1, []⟩
    | .exn msg =>
      if isRetryableError msg then
        let rest := cycleGo attempts maxRetries (retry + 1) _remaining
        if retry < maxRetries - 1 then
          ⟨rest.found, rest.attempts + 1, backoff_window :: rest.sleeps⟩
        else
          ⟨rest.found, rest.attempts + 1, rest.sleeps⟩
      else ⟨false, 1, []⟩

/-- One polling cycle of `run` (`movie_monitor.py:541-563`): the retry loop
from index 0 with `maxRetries` iterations.  The source fixes
`max_retries = 3` at line 542. -/
def runCycle (attempts : Nat → AttemptResult) (maxRetries : Nat) : CycleResult :=
  cycleGo attempts maxRetries 0 maxRetries

/-- What the outer `while True` loop of `run` produces (observed up to `fuel`
cycles): the number of `notify_movie_found` calls, the number of cycles
executed, and whether the loop stopped because the movie was found. -/
structure ProcessResult where
  notifies : Nat
  cyclesRun : Nat
  stoppedFound : Bool
deriving DecidableEq, Repr

/-- The outer loop of `run` (`movie_monitor.py:536-573`): run one cycle; if
`found`, call `notify_movie_found` once and break; otherwise sleep for the
check interval and start the next cycle.  `cycleAttempts i` is the attempt
behaviour of cycle `i`; `fuel` bounds how many cycles we observe of the
unbounded loop. -/
def runProcess (cycleAttempts : Nat → Nat → AttemptResult) (maxRetries idx fuel : Nat) :
    ProcessResult :=
  match fuel with
  | 0 => ⟨0, 0, false⟩
  | fuel + 1 =>
    let cr := runCycle (cycleAttempts idx) maxRetries
    if cr.found then ⟨1, 1, true⟩
    else
      let rest := runProcess cycleAttempts maxRetries (idx + 1) fuel
      ⟨rest.notifies, rest.cyclesRun + 1, rest.stoppedFound⟩

/-- What `movie_monitor_single.main` produces: its returned boolean, the
number of `check_movie_availability` calls, the number of
`notify_movie_found` calls, the arguments of each `send_admin_alert` call
site reached (error text, retry index), and the bounds of each backoff sleep. -/
structure SingleResult where
  retVal : Bool
  attempts : Nat
  notifies : Nat
  adminAlerts : List (String × Nat)
  sleeps : List (Nat × Nat)
deriving DecidableEq, Repr

/-- The retry loop of `movie_monitor_single.main` (`movie_monitor_single.py:
17-51`), `max_retries = 3`: a returned `True` notifies and returns `True`; a
returned `False` returns `False`; a raised token-matching exception reaches
the `send_admin_alert(str(e), retry)` call site when `retry == 0`, sleeps
`random.randint(10, 30)` when `retry < max_retries - 1`, and otherwise
reaches `send_admin_alert("All 3 attempts failed. Last error: " + str(e),
retry)`; any other exception returns `False`.  Falling off the loop returns
`False` (line 50-51).  Note: `MovieMonitor` defines no `send_admin_alert`
method anywhere in the repository, so reaching that call site would in fact
raise `AttributeError`; we charitably record the call's arguments as an
emitted alert. -/
def singleGo (attempts : Nat → AttemptResult) : Nat → Nat → SingleResult
  | _retry, 0 => ⟨false, 0, 0, [], []⟩
  | retry, _remaining + 1 =>
    match attempts retry with
    | .val true => ⟨true, 1, 1, [], []⟩
    | .val false => ⟨false, 1, 0, [], []⟩
    | .exn msg =>
      if isRetryableError msg then
        let firstAlert : List (String × Nat) :=
          if retry = 0 then [(msg, retry)] else []
        if retry < 3 - 1 then
          let rest := singleGo attempts (retry + 1) _remaining
          ⟨rest.retVal, rest.attempts + 1, rest.notifies,
           firstAlert ++ rest.adminAlerts,
           single_backoff_window :: rest.sleeps⟩
        else
          let rest := singleGo attempts (retry + 1) _remaining
          ⟨rest.retVal, rest.attempts + 1, rest.notifies,
           firstAlert ++ [("All 3 attempts failed. Last error: " ++ msg, retry)]
             ++ rest.adminAlerts,
           rest.sleeps⟩
      else ⟨false, 1, 0, [], []⟩

/-- `movie_monitor_single.main` (`movie_monitor_single.py:9-51`): the retry
loop from index 0 with the hard-coded `max_retries = 3`. -/
def singleRun (attempts : Nat → AttemptResult) : SingleResult :=
  singleGo attempts 0 3

/-- The email channel configuration (`config["email"]`,
`movie_monitor.py:69-76`). -/
structure EmailConfig where
  enabled : Bool
  senderEmail : String
  senderPassword : String
  recipientEmails : List String

/-- The webhook channel configuration (`config["webhook"]`,
`movie_monitor.py:77-80`). -/
structure WebhookConfig where
  enabled : Bool
  url : String

/-- The Telegram channel configuration (`config["telegram"]`,
`movie_monitor.py:81-85`). -/
structure TelegramConfig where
  enabled : Bool
  botToken : String
  chatId : String

/-- How one channel's send ends: skipped because the channel is disabled,
skipped because its configuration is incomplete, sent, or raised and was
caught by the channel's handler. -/
inductive ChannelOutcome
  | skippedDisabled
  | skippedIncomplete
  | sent
  | failedCaught
deriving DecidableEq, Repr

/-- Whether the channel actually attempted its send (it either succeeded or
raised inside the attempt). -/
def attempted : ChannelOutcome → Bool
  | .sent => true
  | .failedCaught => true
  | _ => false

/-- The body of `send_email_notification`'s `try` block
(`movie_monitor.py:411-446`): an incomplete configuration (empty sender
address, empty password, or no recipients — `if not all([sender_email,
sender_password]) or not recipient_emails`) logs a warning and returns; an
SMTP failure raises. -/
def emailAttempt (cfg : EmailConfig) (smtpFails : Bool) : Except String ChannelOutcome :=
  if cfg.senderEmail.isEmpty || cfg.senderPassword.isEmpty
      || cfg.recipientEmails.isEmpty then
    .ok .skippedIncomplete
  else if smtpFails then .error "smtp failure"
  else .ok .sent

/-- `send_email_notification` (`movie_monitor.py:406-449`): returns early when
the channel is disabled; otherwise runs the attempt under `try`, catching any
exception at lines 448-449. -/
def send_email_notification (cfg : EmailConfig) (smtpFails : Bool) :
    Except String ChannelOutcome :=
  if !cfg.enabled then .ok .skippedDisabled
  else
    match emailAttempt cfg smtpFails with
    | .ok o => .ok o
    | .error _ => .ok .failedCaught

/-- The body of `send_webhook_notification`'s `try` block
(`movie_monitor.py:456-465`): the POST may raise. -/
def webhookAttempt (postFails : Bool) : Except String ChannelOutcome :=
  if postFails then .error "request failure" else .ok .sent

/-- `send_webhook_notification` (`movie_monitor.py:451-468`): returns early
when the channel is disabled or the URL is empty (`if not ... enabled or not
... url`); otherwise runs the POST under `try`, catching any exception at
lines 467-468. -/
def send_webhook_notification (cfg : WebhookConfig) (postFails : Bool) :
    Except String ChannelOutcome :=
  if !cfg.enabled || cfg.url.isEmpty then .ok .skippedDisabled
  else
    match webhookAttempt postFails with
    | .ok o => .ok o
    | .error _ => .ok .failedCaught

/-- The body of `send_telegram_notification`'s `try` block
(`movie_monitor.py:475-505`): an empty bot token or chat id logs a warning
and returns; the POST may raise. -/
def telegramAttempt (cfg : TelegramConfig) (postFails : Bool) :
    Except String ChannelOutcome :=
  if cfg.botToken.isEmpty || cfg.chatId.isEmpty then .ok .skippedIncomplete
  else if postFails then .error "request failure"
  else .ok .sent

/-- `send_telegram_notification` (`movie_monitor.py:470-508`): returns early
when the channel is disabled; otherwise runs the attempt under `try`,
catching any exception at lines 507-508. -/
def send_telegram_notification (cfg : TelegramConfig) (postFails : Bool) :
    Except String ChannelOutcome :=
  if !cfg.enabled then .ok .skippedDisabled
  else
    match telegramAttempt cfg postFails with
    | .ok o => .ok o
    | .error _ => .ok .failedCaught

/-- `notify_movie_found` (`movie_monitor.py:510-523`): calls the three channel
senders in sequence.  The sequencing is in the `Except` monad, so an
exception escaping any sender would abort the remaining sends and propagate
out of the dispatcher; the theorem below shows that never happens. -/
def notify_movie_found (e : EmailConfig) (w : WebhookConfig) (t : TelegramConfig)
    (emailFails webhookFails telegramFails : Bool) :
    Except String (List ChannelOutcome) := do
  let oe ← send_email_notification e emailFails
  let ow ← send_webhook_notification w webhookFails
  let ot ← send_telegram_notification t telegramFails
  return [oe, ow, ot]

/-- `w1` is contained in `w2` and properly smaller: the spec's "first-retry
window strictly smaller than later-retry windows". -/
def windowStrictlyInside (w1 w2 : Nat × Nat) : Prop :=
  w2.1 ≤ w1.1 ∧ w1.2 ≤ w2.2 ∧ w1 ≠ w2

/-- The outcome `send_email_notification` always produces (its `try`/`except`
catches everything). -/
def emailOutcome (cfg : EmailConfig) (smtpFails : Bool) : ChannelOutcome :=
  if !cfg.enabled then .skippedDisabled
  else if cfg.senderEmail.isEmpty || cfg.senderPassword.isEmpty
      || cfg.recipientEmails.isEmpty then .skippedIncomplete
  else if smtpFails then .failedCaught
  else .sent

/-- The outcome `send_webhook_notification` always produces. -/
def webhookOutcome (cfg : WebhookConfig) (postFails : Bool) : ChannelOutcome :=
  if !cfg.enabled || cfg.url.isEmpty then .skippedDisabled
  else if postFails then .failedCaught
  else .sent

/-- The outcome `send_telegram_notification` always produces. -/
def telegramOutcome (cfg : TelegramConfig) (postFails : Bool) : ChannelOutcome :=
  if !cfg.enabled then .skippedDisabled
  else if cfg.botToken.isEmpty || cfg.chatId.isEmpty then .skippedIncomplete
  else if postFails then .failedCaught
  else .sent

/-! ## Helper lemmas -/

theorem filter_head_eq_find {α : Type} (p : α → Bool) (l : List α) :
    (l.filter p).head? = l.find? p := by
  induction l with
  | nil => rfl
  | cons a l ih =>
    cases h : p a <;> simp [List.filter_cons, List.find?, h, ih]

/-! ## Claim theorems -/

/-- C2: For every list of listing titles L and configured target name T, the
check classifies the attempt as Found (returns `True`) if and only if some
title in L contains T as a case-insensitive substring, and the first matched
title it reports (the first `"Found target movie"` log line) is the first
matching title in L's listing order. -/
theorem found_iff_ci_substring_and_first_match (movieName : String)
    (titles : List String) :
    ((check_movie_availability movieName ⟨true, true, .ok titles⟩).result = true
        ↔ ∃ t ∈ titles, lowerChars movieName <:+: lowerChars t)
    ∧ (check_movie_availability movieName ⟨true, true, .ok titles⟩).foundLog.head?
        = titles.find? (titleMatches movieName) := by
  constructor
  · simp [check_movie_availability, setup_browser, titleMatches, containsLower]
  · simp only [check_movie_availability, setup_browser]
    exact filter_head_eq_find _ _

/-- C10: For every input and every error arising during the fetch-and-classify
attempt, `check_movie_availability` returns a boolean and never propagates the
exception to its caller: every caught error yields the return value `False`,
indistinguishable at the call site from an authoritative NotFound (the result
for an error equals the result for a successfully loaded page with no
matching title), and the attempt behaviour seen by the retry loops is always
a returned value, never a raised exception. -/
theorem check_never_raises_and_error_is_false (movieName : String)
    (s1 s2 : Bool) (msg : String) (envs : Nat → AttemptEnv) (k : Nat) :
    (check_movie_availability movieName ⟨s1, s2, .err msg⟩).result = false
    ∧ (check_movie_availability movieName ⟨s1, s2, .err msg⟩).result
        = (check_movie_availability movieName ⟨s1, s2, .ok []⟩).result
    ∧ ∃ b, attemptsOf movieName envs k = .val b := by
  refine ⟨?_, ?_, ⟨_, rfl⟩⟩ <;>
    cases s1 <;> cases s2 <;> simp [check_movie_availability, setup_browser]

theorem cycleGo_attempts_le (attempts : Nat → AttemptResult) (maxRetries : Nat) :
    ∀ remaining retry,
      (cycleGo attempts maxRetries retry remaining).attempts ≤ remaining := by
  intro remaining
  induction remaining with
  | zero => intro retry; simp [cycleGo]
  | succ n ih =>
    intro retry
    cases hA : attempts retry with
    | val b => cases b <;> simp [cycleGo, hA]
    | exn msg =>
      by_cases h : isRetryableError msg = true
      · by_cases h2 : retry < maxRetries - 1 <;>
          simp [cycleGo, hA, h, h2] <;>
          exact ih (retry + 1)
      · simp [cycleGo, hA, h]

theorem singleGo_attempts_le (attempts : Nat → AttemptResult) :
    ∀ remaining retry, (singleGo attempts retry remaining).attempts ≤ remaining := by
  intro remaining
  induction remaining with
  | zero => intro retry; simp [singleGo]
  | succ n ih =>
    intro retry
    cases hA : attempts retry with
    | val b => cases b <;> simp [singleGo, hA]
    | exn msg =>
      by_cases h : isRetryableError msg = true
      · by_cases h2 : retry < 3 - 1 <;>
          simp [singleGo, hA, h, h2] <;>
          exact ih (retry + 1)
      · simp [singleGo, hA, h]

/-- C4: For every polling cycle, the number of fetch attempts made never
exceeds the configured `max_retries_per_cycle` (hard-coded to 3 in the
single-run script), regardless of which outcomes the attempts produce. -/
theorem attempts_never_exceed_max (attempts attempts2 : Nat → AttemptResult)
    (maxRetries : Nat) :
    (runCycle attempts maxRetries).attempts ≤ maxRetries
    ∧ (singleRun attempts2).attempts ≤ 3 :=
  ⟨cycleGo_attempts_le attempts maxRetries maxRetries 0,
   singleGo_attempts_le attempts2 3 0⟩

/-- C3: For every polling cycle in which an attempt yields NotFound (the check
returned `False`: the page loaded but no title matched, including the empty
title list) or FatalError (an exception whose message matches none of the
retry tokens), the cycle terminates immediately at that attempt, with no
further retry attempts and no backoff sleep. -/
theorem notfound_or_fatal_terminates_cycle (attempts : Nat → AttemptResult)
    (maxRetries retry remaining : Nat) (hrem : 0 < remaining)
    (h : attempts retry = .val false
        ∨ ∃ msg, attempts retry = .exn msg ∧ isRetryableError msg = false) :
    cycleGo attempts maxRetries retry remaining = ⟨false, 1, []⟩ := by
  obtain ⟨n, rfl⟩ : ∃ n, remaining = n + 1 := ⟨remaining - 1, by omega⟩
  rcases h with h | ⟨msg, hm, hf⟩
  · simp [cycleGo, h]
  · simp [cycleGo, hm, hf]

/-- Witness for C3: a cycle whose first attempt loads the page successfully
but finds no matching title (an authoritative NotFound) stops after exactly
that one attempt. -/
theorem notfound_or_fatal_terminates_cycle_witness :
    cycleGo (attemptsOf "Coolie" (fun _ => ⟨true, true, .ok ["Alpha", "Beta"]⟩))
        3 0 3 = ⟨false, 1, []⟩ :=
  notfound_or_fatal_terminates_cycle
    (attemptsOf "Coolie" (fun _ => ⟨true, true, .ok ["Alpha", "Beta"]⟩))
    3 0 3 (by decide) (Or.inl (by decide))

theorem runProcess_notifies_le (cycleAttempts : Nat → Nat → AttemptResult)
    (maxRetries : Nat) :
    ∀ fuel idx, (runProcess cycleAttempts maxRetries idx fuel).notifies ≤ 1 := by
  intro fuel
  induction fuel with
  | zero => intro idx; simp [runProcess]
  | succ n ih =>
    intro idx
    by_cases h : (runCycle (cycleAttempts idx) maxRetries).found = true <;>
      simp [runProcess, h]
    exact ih (idx + 1)

theorem runProcess_notifies_eq_one_iff (cycleAttempts : Nat → Nat → AttemptResult)
    (maxRetries : Nat) :
    ∀ fuel idx,
      (runProcess cycleAttempts maxRetries idx fuel).notifies = 1
        ↔ ∃ i, i < fuel
            ∧ (runCycle (cycleAttempts (idx + i)) maxRetries).found = true := by
  intro fuel
  induction fuel with
  | zero => intro idx; simp [runProcess]
  | succ n ih =>
    intro idx
    by_cases h : (runCycle (cycleAttempts idx) maxRetries).found = true
    · simp only [runProcess, h, if_true]
      constructor
      · intro _
        exact ⟨0, Nat.succ_pos n, by simpa using h⟩
      · intro _; trivial
    · simp only [runProcess, h, if_false, Bool.false_eq_true]
      rw [ih (idx + 1)]
      constructor
      · rintro ⟨i, hi, hfound⟩
        refine ⟨i + 1, by omega, ?_⟩
        have he : idx + (i + 1) = idx + 1 + i := by omega
        rw [he]; exact hfound
      · rintro ⟨i, hi, hfound⟩
        cases i with
        | zero => exact absurd (by simpa using hfound) h
        | succ j =>
          refine ⟨j, by omega, ?_⟩
          have he : idx + 1 + j = idx + (j + 1) := by omega
          rw [he]; exact hfound

theorem singleGo_notifies_le (attempts : Nat → AttemptResult) :
    ∀ remaining retry, (singleGo attempts retry remaining).notifies ≤ 1 := by
  intro remaining
  induction remaining with
  | zero => intro retry; simp [singleGo]
  | succ n ih =>
    intro retry
    cases hA : attempts retry with
    | val b => cases b <;> simp [singleGo, hA]
    | exn msg =>
      by_cases h : isRetryableError msg = true
      · by_cases h2 : retry < 3 - 1 <;>
          simp [singleGo, hA, h, h2] <;>
          exact ih (retry + 1)
      · simp [singleGo, hA, h]

/-- C5: In every process run, exactly one Found outcome triggers exactly one
notification dispatch: `notify_movie_found` is called at most once; it is
called exactly once precisely when some cycle within the observed portion of
the run reports `found` (the loop breaks at the first such cycle); and the
single-run script likewise notifies at most once. -/
theorem found_notifies_exactly_once (cycleAttempts : Nat → Nat → AttemptResult)
    (maxRetries idx fuel : Nat) (attempts : Nat → AttemptResult) :
    (runProcess cycleAttempts maxRetries idx fuel).notifies ≤ 1
    ∧ ((runProcess cycleAttempts maxRetries idx fuel).notifies = 1
        ↔ ∃ i, i < fuel
            ∧ (runCycle (cycleAttempts (idx + i)) maxRetries).found = true)
    ∧ (singleRun attempts).notifies ≤ 1 :=
  ⟨runProcess_notifies_le cycleAttempts maxRetries fuel idx,
   runProcess_notifies_eq_one_iff cycleAttempts maxRetries fuel idx,
   singleGo_notifies_le attempts 3 0⟩

/-- C1 (code bug): an attempt whose fetch fails with a message containing the
token `"cloudflare"` does NOT lead to a backoff sleep and a further attempt —
`check_movie_availability` catches the exception and returns `False`
(`movie_monitor.py:397-402`), so the retry loop at `movie_monitor.py:550-552`
treats it as a conclusive NotFound and breaks after a single attempt with no
sleep, even though the message matches the retry tokens and two retries
remain. -/
theorem blocked_error_not_retried_code_bug :
    isRetryableError "Cloudflare challenge detected" = true
    ∧ runCycle (attemptsOf "Coolie"
        (fun _ => ⟨true, true, .err "Cloudflare challenge detected"⟩)) 3
      = ⟨false, 1, []⟩ :=
  ⟨by decide, by decide⟩

/-- C6 (code bug): when browser setup partially fails — Playwright starts but
the browser launch raises — `check_movie_availability` returns at
`movie_monitor.py:251-252`, before its `try`/`finally`, so `close_browser` is
never called and the started Playwright driver is still running at the
attempt's exit.  On the paths that do reach the `try` block, the `finally`
releases both resources. -/
theorem partial_setup_leaks_resource_code_bug :
    (check_movie_availability "Coolie" ⟨true, false, .ok ["Coolie"]⟩).resources
        = ⟨true, false⟩
    ∧ (check_movie_availability "Coolie" ⟨true, true, .ok ["Coolie"]⟩).resources
        = ⟨false, false⟩
    ∧ (check_movie_availability "Coolie" ⟨true, true, .err "timeout"⟩).resources
        = ⟨false, false⟩ :=
  ⟨rfl, rfl, rfl⟩

/-- C8 (code bug): a single-run cycle in which every fetch fails with a
token-matching (`"cloudflare"`) message emits NO admin alert: the exception is
swallowed by `check_movie_availability`, so the alert branch of
`movie_monitor_single.py:29-44` is never reached; the run returns after one
attempt with zero `send_admin_alert` calls, where the claim requires two
alerts.  (Moreover `MovieMonitor` defines no `send_admin_alert` method, so
reaching that branch would raise `AttributeError`.) -/
theorem admin_alert_never_emitted_code_bug :
    isRetryableError "cloudflare block page" = true
    ∧ singleRun (attemptsOf "Coolie"
        (fun _ => ⟨true, true, .err "cloudflare block page"⟩))
      = ⟨false, 1, 0, [], []⟩ :=
  ⟨by decide, by decide⟩

theorem cycleGo_sleeps_fixed (attempts : Nat → AttemptResult) (maxRetries : Nat) :
    ∀ remaining retry s,
      s ∈ (cycleGo attempts maxRetries retry remaining).sleeps →
        s = backoff_window := by
  intro remaining
  induction remaining with
  | zero => intro retry s hs; simp [cycleGo] at hs
  | succ n ih =>
    intro retry s hs
    cases hA : attempts retry with
    | val b => cases b <;> simp [cycleGo, hA] at hs
    | exn msg =>
      by_cases h : isRetryableError msg = true
      · by_cases h2 : retry < maxRetries - 1 <;> simp [cycleGo, hA, h, h2] at hs
        · rcases hs with hs | hs
          · exact hs
          · exact ih (retry + 1) s hs
        · exact ih (retry + 1) s hs
      · simp [cycleGo, hA, h] at hs

theorem singleGo_sleeps_fixed (attempts : Nat → AttemptResult) :
    ∀ remaining retry s,
      s ∈ (singleGo attempts retry remaining).sleeps →
        s = single_backoff_window := by
  intro remaining
  induction remaining with
  | zero => intro retry s hs; simp [singleGo] at hs
  | succ n ih =>
    intro retry s hs
    cases hA : attempts retry with
    | val b => cases b <;> simp [singleGo, hA] at hs
    | exn msg =>
      by_cases h : isRetryableError msg = true
      · by_cases h2 : retry < 3 - 1 <;> simp [singleGo, hA, h, h2] at hs
        · rcases hs with hs | hs
          · exact hs
          · exact ih (retry + 1) s hs
        · exact ih (retry + 1) s hs
      · simp [singleGo, hA, h] at hs

/-- C9 counterexample: in a cycle with two backoff sleeps, the window used
before the first retry equals the window used before the second retry — it is
not strictly smaller, so the backoff window does not widen with the retry
index. -/
theorem backoff_window_not_widening_cex :
    (runCycle (fun _ => .exn "timeout happened") 3).sleeps = [(30, 90), (30, 90)]
    ∧ ¬ windowStrictlyInside (30, 90) (30, 90) := by
  refine ⟨by decide, fun h => h.2.2 rfl⟩

/-- C9 (amended): the randomized backoff window is the same fixed interval at
every retry index — `(30, 90)` seconds in the monitor loop and `(10, 30)`
seconds in the single-run script — so every retry's window is (weakly)
contained in every other's, but the first-retry window is not strictly
smaller than later ones. -/
theorem backoff_window_fixed (attempts attempts2 : Nat → AttemptResult)
    (maxRetries retry remaining retry2 remaining2 : Nat) :
    (∀ s ∈ (cycleGo attempts maxRetries retry remaining).sleeps,
        s = backoff_window)
    ∧ ∀ s ∈ (singleGo attempts2 retry2 remaining2).sleeps,
        s = single_backoff_window :=
  ⟨fun s hs => cycleGo_sleeps_fixed attempts maxRetries remaining retry s hs,
   fun s hs => singleGo_sleeps_fixed attempts2 remaining2 retry2 s hs⟩

/-- Witness for C9 (amended): a concrete cycle that performs a backoff sleep,
whose recorded window is the fixed `(30, 90)`. -/
theorem backoff_window_fixed_witness :
    (30, 90) ∈ (cycleGo (fun _ => .exn "request timeout") 3 0 3).sleeps
    ∧ ((30, 90) : Nat × Nat) = backoff_window :=
  ⟨by decide,
   (backoff_window_fixed (fun _ => .exn "request timeout")
      (fun _ => .exn "request timeout") 3 0 3 0 3).1 (30, 90) (by decide)⟩

theorem send_email_notification_eq (cfg : EmailConfig) (f : Bool) :
    send_email_notification cfg f = .ok (emailOutcome cfg f) := by
  rcases cfg with ⟨en, se, sp, re⟩
  cases en
  · simp [send_email_notification, emailOutcome]
  · by_cases hc : (se.isEmpty || sp.isEmpty || re.isEmpty) = true
    · simp [send_email_notification, emailAttempt, emailOutcome, hc]
    · cases f <;>
        simp [send_email_notification, emailAttempt, emailOutcome, hc]

theorem send_webhook_notification_eq (cfg : WebhookConfig) (f : Bool) :
    send_webhook_notification cfg f = .ok (webhookOutcome cfg f) := by
  rcases cfg with ⟨en, url⟩
  by_cases hd : (!en || url.isEmpty) = true
  · simp [send_webhook_notification, webhookOutcome, hd]
  · cases f <;>
      simp [send_webhook_notification, webhookAttempt, webhookOutcome, hd]

theorem send_telegram_notification_eq (cfg : TelegramConfig) (f : Bool) :
    send_telegram_notification cfg f = .ok (telegramOutcome cfg f) := by
  rcases cfg with ⟨en, tok, chat⟩
  cases en
  · simp [send_telegram_notification, telegramOutcome]
  · by_cases hc : (tok.isEmpty || chat.isEmpty) = true
    · simp [send_telegram_notification, telegramAttempt, telegramOutcome, hc]
    · cases f <;>
        simp [send_telegram_notification, telegramAttempt, telegramOutcome, hc]

theorem attempted_emailOutcome (cfg : EmailConfig) (f : Bool) :
    attempted (emailOutcome cfg f)
      = (cfg.enabled && !(cfg.senderEmail.isEmpty || cfg.senderPassword.isEmpty
          || cfg.recipientEmails.isEmpty)) := by
  rcases cfg with ⟨en, se, sp, re⟩
  cases en <;>
    by_cases hc : (se.isEmpty || sp.isEmpty || re.isEmpty) = true <;>
    cases f <;> simp [emailOutcome, attempted, hc]

theorem attempted_webhookOutcome (cfg : WebhookConfig) (f : Bool) :
    attempted (webhookOutcome cfg f) = (cfg.enabled && !cfg.url.isEmpty) := by
  rcases cfg with ⟨en, url⟩
  cases en <;> by_cases hu : url.isEmpty = true <;> cases f <;>
    simp [webhookOutcome, attempted, hu]

theorem attempted_telegramOutcome (cfg : TelegramConfig) (f : Bool) :
    attempted (telegramOutcome cfg f)
      = (cfg.enabled && !(cfg.botToken.isEmpty || cfg.chatId.isEmpty)) := by
  rcases cfg with ⟨en, tok, chat⟩
  cases en <;> by_cases hc : (tok.isEmpty || chat.isEmpty) = true <;>
    cases f <;> simp [telegramOutcome, attempted, hc]

/-- C7: For every Found event dispatched, each enabled notification channel is
invoked independently: the dispatcher always completes with an outcome for
every channel (no channel's error propagates past the dispatcher boundary,
which is sequenced in the `Except` monad and would abort on an escaped
exception), each channel's outcome depends only on its own configuration and
failure behaviour, and a channel that is enabled and configured attempts its
send exactly once regardless of whether the other channels fail. -/
theorem dispatcher_isolates_channel_failures (e : EmailConfig) (w : WebhookConfig)
    (t : TelegramConfig) (emailFails webhookFails telegramFails : Bool) :
    notify_movie_found e w t emailFails webhookFails telegramFails
        = .ok [emailOutcome e emailFails, webhookOutcome w webhookFails,
               telegramOutcome t telegramFails]
    ∧ attempted (emailOutcome e emailFails)
        = (e.enabled && !(e.senderEmail.isEmpty || e.senderPassword.isEmpty
            || e.recipientEmails.isEmpty))
    ∧ attempted (webhookOutcome w webhookFails) = (w.enabled && !w.url.isEmpty)
    ∧ attempted (telegramOutcome t telegramFails)
        = (t.enabled && !(t.botToken.isEmpty || t.chatId.isEmpty)) := by
  refine ⟨?_, attempted_emailOutcome e emailFails,
    attempted_webhookOutcome w webhookFails,
    attempted_telegramOutcome t telegramFails⟩
  simp [notify_movie_found, send_email_notification_eq, send_webhook_notification_eq,
    send_telegram_notification_eq, Bind.bind, Except.bind, Pure.pure, Except.pure]

end MovieMonitor
